import Mathlib

/-!
Verification development for a webhook ingestion service.

The service (Python, FastAPI + SQLite) authenticates inbound webhook events
with HMAC-SHA256, validates payloads, stores them idempotently keyed on
`message_id`, and serves filtered/paginated listings plus aggregate stats.

This file shallowly embeds the relevant code:
  * `app/main.py`: `verify_signature`, the `/webhook` endpoint control flow;
  * `app/models.py`: the `MessageIn` pydantic validators;
  * `app/storage.py`: `insert_message_idempotent`, `list_messages`, `get_stats`
    (SQLite queries are embedded by their semantics over a list of rows).

Python byte strings are `List Nat` (each element < 256), Python `str` is
`String`, machine words are `Nat` reduced `% 2^32` where overflow matters.
Python exceptions are modelled with `Except`.
-/

set_option maxRecDepth 100000

/-! ## SHA-256 (models Python `hashlib.sha256`)

FIPS 180-4 SHA-256 over byte lists, used by `hmac.new(..., sha256)` in
`app/main.py`.  Words are `Nat` kept below `2^32`.
-/

def M32 : Nat := 4294967296

def add32 (a b : Nat) : Nat := (a + b) % M32

def rotr32 (n x : Nat) : Nat := ((x >>> n) ||| (x <<< (32 - n))) % M32

def not32 (x : Nat) : Nat := x ^^^ (M32 - 1)

def bsig0 (x : Nat) : Nat := rotr32 2 x ^^^ rotr32 13 x ^^^ rotr32 22 x

def bsig1 (x : Nat) : Nat := rotr32 6 x ^^^ rotr32 11 x ^^^ rotr32 25 x

def ssig0 (x : Nat) : Nat := rotr32 7 x ^^^ rotr32 18 x ^^^ (x >>> 3)

def ssig1 (x : Nat) : Nat := rotr32 17 x ^^^ rotr32 19 x ^^^ (x >>> 10)

def chWord (x y z : Nat) : Nat := (x &&& y) ^^^ (not32 x &&& z)

def majWord (x y z : Nat) : Nat := (x &&& y) ^^^ (x &&& z) ^^^ (y &&& z)

/-- Round constants of SHA-256. -/
def K256 : List Nat :=
  [1116352408, 1899447441, 3049323471, 3921009573, 961987163, 1508970993,
   2453635748, 2870763221, 3624381080, 310598401, 607225278, 1426881987,
   1925078388, 2162078206, 2614888103, 3248222580, 3835390401, 4022224774,
   264347078, 604807628, 770255983, 1249150122, 1555081692, 1996064986,
   2554220882, 2821834349, 2952996808, 3210313671, 3336571891, 3584528711,
   113926993, 338241895, 666307205, 773529912, 1294757372, 1396182291,
   1695183700, 1986661051, 2177026350, 2456956037, 2730485921, 2820302411,
   3259730800, 3345764771, 3516065817, 3600352804, 4094571909, 275423344,
   430227734, 506948616, 659060556, 883997877, 958139571, 1322822218,
   1537002063, 1747873779, 1955562222, 2024104815, 2227730452, 2361852424,
   2428436474, 2756734187, 3204031479, 3329325298]

/-- Initial hash value of SHA-256. -/
def H256 : List Nat :=
  [1779033703, 3144134277, 1013904242, 2773480762,
   1359893119, 2600822924, 528734635, 1541459225]

/-- Big-endian encoding of `v` into `n` bytes. -/
def bytesBE (n v : Nat) : List Nat :=
  (List.range n).map (fun i => (v >>> (8 * (n - 1 - i))) % 256)

/-- SHA-256 message padding: append `0x80`, zero bytes up to 56 mod 64,
then the bit length as 8 big-endian bytes. -/
def sha256Pad (msg : List Nat) : List Nat :=
  let z := (120 - ((msg.length + 1) % 64)) % 64
  msg ++ [0x80] ++ List.replicate z 0 ++ bytesBE 8 (8 * msg.length)

/-- Group bytes into big-endian 32-bit words. -/
def wordsOfBytes : List Nat → List Nat
  | b0 :: b1 :: b2 :: b3 :: rest =>
      ((((b0 <<< 8) ||| b1) <<< 8 ||| b2) <<< 8 ||| b3) :: wordsOfBytes rest
  | _ => []

/-- Split a padded message into 64-byte blocks. -/
def sha256Blocks (padded : List Nat) : List (List Nat) :=
  (List.range (padded.length / 64)).map (fun i => (padded.drop (64 * i)).take 64)

/-- Message schedule: extend the 16 block words to 64. -/
def scheduleW (block : List Nat) : List Nat :=
  (List.range 48).foldl
    (fun w _ =>
      let n := w.length
      let x := add32 (add32 (ssig1 (w.getD (n - 2) 0)) (w.getD (n - 7) 0))
                     (add32 (ssig0 (w.getD (n - 15) 0)) (w.getD (n - 16) 0))
      w ++ [x])
    (wordsOfBytes block)

/-- One SHA-256 compression step over a 64-byte block. -/
def compressBlock (h : List Nat) (block : List Nat) : List Nat :=
  let w := scheduleW block
  let final := (List.zip K256 w).foldl
    (fun st kw =>
      match st with
      | [a, b, c, d, e, f, g, hh] =>
          let t1 := add32 hh (add32 (bsig1 e) (add32 (chWord e f g) (add32 kw.1 kw.2)))
          let t2 := add32 (bsig0 a) (majWord a b c)
          [add32 t1 t2, a, b, c, add32 d t1, e, f, g]
      | other => other)
    h
  List.zipWith add32 h final

/-- SHA-256 digest of a byte list, as 32 bytes. -/
def sha256 (msg : List Nat) : List Nat :=
  let hs := (sha256Blocks (sha256Pad msg)).foldl compressBlock H256
  (hs.map (bytesBE 4)).flatten

/-- Two lowercase hex digits of a byte (`Nat.digitChar` maps 0-15 to
`0`-`9`, `a`-`f`). -/
def byteToHex (b : Nat) : List Char :=
  [Nat.digitChar (b / 16 % 16), Nat.digitChar (b % 16)]

/-- Lowercase hex rendering of a byte list (models `.hexdigest()`). -/
def hexdigest (bytes : List Nat) : String :=
  String.mk ((bytes.map byteToHex).flatten)

/-- UTF-8 encoding of one character. -/
def charUtf8 (c : Char) : List Nat :=
  let n := c.toNat
  if n < 0x80 then [n]
  else if n < 0x800 then [0xC0 ||| (n >>> 6), 0x80 ||| (n &&& 0x3F)]
  else if n < 0x10000 then
    [0xE0 ||| (n >>> 12), 0x80 ||| ((n >>> 6) &&& 0x3F), 0x80 ||| (n &&& 0x3F)]
  else
    [0xF0 ||| (n >>> 18), 0x80 ||| ((n >>> 12) &&& 0x3F),
     0x80 ||| ((n >>> 6) &&& 0x3F), 0x80 ||| (n &&& 0x3F)]

/-- UTF-8 encoding of a string (models Python `str.encode("utf-8")`). -/
def utf8Bytes (s : String) : List Nat := (s.data.map charUtf8).flatten

/-- HMAC-SHA256 (RFC 2104), as used by `hmac.new(secret, body, sha256)`. -/
def hmacSha256 (key msg : List Nat) : List Nat :=
  let k0 := if 64 < key.length then sha256 key else key
  let k := k0 ++ List.replicate (64 - k0.length) 0
  sha256 ((k.map (fun b => b ^^^ 0x5c)) ++ sha256 ((k.map (fun b => b ^^^ 0x36)) ++ msg))

-- Sanity checks against the FIPS 180-4 / RFC 2104 test vectors.
example : hexdigest (sha256 (utf8Bytes "abc")) =
    "ba7816bf8f01cfea414140de5dae2223b00361a396177a9cb410ff61f20015ad" := by decide
example : hexdigest (hmacSha256 (utf8Bytes "key")
      (utf8Bytes "The quick brown fox jumps over the lazy dog")) =
    "f7bc83f430538424b13298e6aa6fb143ef4d59a14946175997479dbc2d1a3cd8" := by decide

/-! ## Python string primitives used by `app/main.py` and `app/models.py` -/

/-- Whitespace characters stripped by Python `str.strip()` (the common ASCII
whitespace set; Python also strips rarer Unicode space characters, which do
not occur in any input considered here). -/
def isPySpace (c : Char) : Bool :=
  c == ' ' || c == '\t' || c == '\n' || c == '\x0d' || c == '\x0b' || c == '\x0c'

/-- Python `str.strip()`: remove leading and trailing whitespace. -/
def pyStrip (s : String) : String :=
  String.mk (((s.data.dropWhile isPySpace).reverse.dropWhile isPySpace).reverse)

/-- True when the character is in the ASCII range. -/
def isAsciiChar (c : Char) : Bool := c.toNat < 128

/-- Exceptions a modelled Python call can raise. -/
inductive PyError
  | typeError
  | valueError
  deriving DecidableEq, Repr

/-- Python `hmac.compare_digest` on two `str` arguments: a constant-time
equality check.  Both strings must be ASCII-only; otherwise CPython raises
`TypeError` (comparing strings with non-ASCII characters is not supported). -/
def compare_digest (a b : String) : Except PyError Bool :=
  if a.data.all isAsciiChar && b.data.all isAsciiChar then .ok (a == b)
  else .error .typeError

/-- Embedding of `verify_signature` from `app/main.py`:

```python
def verify_signature(secret, body, signature_header):
    try:
        provided_sig = signature_header.strip()
    except Exception:
        return False
    computed = hmac.new(secret.encode("utf-8"), body, sha256).hexdigest()
    return hmac.compare_digest(computed, provided_sig)
```

The `try` block only protects `signature_header.strip()`, which never raises
on a `str`, so the `except` branch is dead for string inputs; an exception
raised by `hmac.compare_digest` propagates to the caller, modelled here as
`Except.error`. -/
def verify_signature (secret : String) (body : List Nat) (signature_header : String) :
    Except PyError Bool :=
  let provided_sig := pyStrip signature_header
  let computed := hexdigest (hmacSha256 (utf8Bytes secret) body)
  compare_digest computed provided_sig

/-! ## Payload validation (models `app/models.py`, pydantic v1 `MessageIn`) -/

/-- Python `re` dollar anchor: `X$` also matches when the string has a single
trailing newline after `X`.  This chops that newline before the core match. -/
def chopDollar (cs : List Char) : List Char :=
  match cs.getLast? with
  | some c => if c == '\n' then cs.dropLast else cs
  | none => cs

/-- Core of the E.164 regex `^\+[1-9]\d{1,14}$` from `app/models.py`.
The class `\d` is modelled as ASCII `0-9` (Python `re` without `re.ASCII`
also matches other Unicode decimal digits; none occur in the inputs the
claims concern). -/
def e164Core (cs : List Char) : Bool :=
  match cs with
  | '+' :: d :: rest =>
      ('1' ≤ d && d ≤ '9') && decide (1 ≤ rest.length) && decide (rest.length ≤ 14) &&
        rest.all Char.isDigit
  | _ => false

/-- Result of `E164_REGEX.match(v)` being truthy, for `v : str`. -/
def e164Match (v : String) : Bool := e164Core (chopDollar v.data)

/-- Numeric value of a list of ASCII digits. -/
def natOfDigits (cs : List Char) : Nat := cs.foldl (fun a c => 10 * a + (c.toNat - 48)) 0

/-- Parse exactly two ASCII digits. -/
def parse2 (cs : List Char) : Option (Nat × List Char) :=
  match cs with
  | a :: b :: rest =>
      if a.isDigit && b.isDigit then some (natOfDigits [a, b], rest) else none
  | _ => none

def isLeapYear (y : Nat) : Bool := y % 4 == 0 && (y % 100 != 0 || y % 400 == 0)

def daysInMonth (y m : Nat) : Nat :=
  if m == 2 then (if isLeapYear y then 29 else 28)
  else if m == 4 || m == 6 || m == 9 || m == 11 then 30
  else 31

def validYMD (y m d : Nat) : Bool :=
  decide (1 ≤ y) && decide (1 ≤ m) && decide (m ≤ 12) && decide (1 ≤ d) &&
    decide (d ≤ daysInMonth y m)

/-- Parse the date part `YYYY-MM-DD` (extended) or `YYYYMMDD` (basic),
returning year, month, day and the remaining characters. -/
def parseDatePart (cs : List Char) : Option (Nat × Nat × Nat × List Char) :=
  match cs with
  | y1 :: y2 :: y3 :: y4 :: rest0 =>
      if [y1, y2, y3, y4].all Char.isDigit then
        let y := natOfDigits [y1, y2, y3, y4]
        match rest0 with
        | '-' :: rest1 =>
            match parse2 rest1 with
            | some (m, '-' :: rest3) =>
                match parse2 rest3 with
                | some (d, rest4) => some (y, m, d, rest4)
                | none => none
            | _ => none
        | _ =>
            match parse2 rest0 with
            | some (m, rest2) =>
                match parse2 rest2 with
                | some (d, rest3) => some (y, m, d, rest3)
                | none => none
            | none => none
      else none
  | _ => none

/-- Parse an optional fraction `('.' | ',') digit+`; no leading dot means no
fraction and the input is returned unchanged. -/
def parseFraction (cs : List Char) : Option (List Char) :=
  match cs with
  | c :: rest =>
      if c == '.' || c == ',' then
        let digits := rest.takeWhile Char.isDigit
        if digits.isEmpty then none else some (rest.drop digits.length)
      else some cs
  | [] => some []

/-- Parse a time `HH[[:]MM[[:]SS[.frac]]]` (extended or basic form) with
range checks, returning the remaining characters.  Fractions are only
accepted after seconds (CPython rejects fractional hours and minutes). -/
def parseTimePart (cs : List Char) : Option (List Char) :=
  match parse2 cs with
  | none => none
  | some (h, r1) =>
    if 24 ≤ h then none else
    match r1 with
    | ':' :: r2 =>
        (match parse2 r2 with
        | none => none
        | some (m, r3) =>
          if 60 ≤ m then none else
          match r3 with
          | ':' :: r4 =>
              (match parse2 r4 with
              | none => none
              | some (s, r5) => if 60 ≤ s then none else parseFraction r5)
          | _ => some r3)
    | _ =>
        match parse2 r1 with
        | none => some r1
        | some (m, r3) =>
          if 60 ≤ m then none else
          match parse2 r3 with
          | none => some r3
          | some (s, r5) => if 60 ≤ s then none else parseFraction r5

/-- Parse an optional trailing UTC offset `('+' | '-') HH[[:]MM[[:]SS[.frac]]]`. -/
def parseOffset (cs : List Char) : Option (List Char) :=
  match cs with
  | [] => some []
  | c :: rest => if c == '+' || c == '-' then parseTimePart rest else none

/-- Acceptance of Python `datetime.fromisoformat` (CPython 3.11 grammar:
date, then optionally one arbitrary separator character, a time, and an
offset; reduced-precision, ordinal and week dates are not supported). -/
def pyFromIsoformat (s : String) : Bool :=
  match parseDatePart s.data with
  | none => false
  | some (y, m, d, rest) =>
      validYMD y m d &&
      (match rest with
       | [] => true
       | _sep :: rest1 =>
          match parseTimePart rest1 with
          | none => false
          | some rest2 =>
              match parseOffset rest2 with
              | some [] => true
              | _ => false)

/-- Python `v.endswith("Z")`. -/
def endsWithZ (v : String) : Bool :=
  match v.data.getLast? with
  | some c => c == 'Z'
  | none => false

/-- Python `v.replace("Z", "+00:00")` (every occurrence is replaced). -/
def replaceZ (v : String) : String :=
  String.mk (v.data.flatMap (fun c => if c == 'Z' then ['+', '0', '0', ':', '0', '0'] else [c]))

/-- Validator `validate_message_id`: passes iff `v` is non-empty and
non-empty after `strip()` (`if not v or not v.strip(): raise ValueError`). -/
def validate_message_id (v : String) : Bool := !(v == "") && !(pyStrip v == "")

/-- Validator `validate_from`: passes iff the E.164 regex matches. -/
def validate_from (v : String) : Bool := e164Match v

/-- Validator `validate_to`: passes iff the E.164 regex matches. -/
def validate_to (v : String) : Bool := e164Match v

/-- Validator `validate_ts`: passes iff `v` ends with `Z` and
`datetime.fromisoformat(v.replace("Z", "+00:00"))` succeeds. -/
def validate_ts (v : String) : Bool := endsWithZ v && pyFromIsoformat (replaceZ v)

/-- Validator `validate_text`: passes iff absent or at most 4096 characters. -/
def validate_text : Option String → Bool
  | none => true
  | some v => decide (v.length ≤ 4096)

/-- Raw JSON object handed to `MessageIn.parse_obj`: each schema field either
absent or a string (non-string JSON values for these fields are out of scope
of the claims; pydantic would reject or coerce them). -/
structure RawPayload where
  message_id : Option String
  from_ : Option String
  to_ : Option String
  ts : Option String
  text : Option String
  deriving DecidableEq, Repr

/-- Validated `MessageIn` model. -/
structure MessageIn where
  message_id : String
  from_ : String
  to_ : String
  ts : String
  text : Option String
  deriving DecidableEq, Repr

/-- Embedding of `MessageIn.parse_obj`: all four required fields must be
present and every field validator must pass (pydantic collects the failures;
only acceptance vs. rejection is modelled). -/
def MessageIn.parse_obj (p : RawPayload) : Option MessageIn :=
  match p.message_id, p.from_, p.to_, p.ts with
  | some mid, some f, some t, some ts =>
      if validate_message_id mid && validate_from f && validate_to t &&
          validate_ts ts && validate_text p.text then
        some ⟨mid, f, t, ts, p.text⟩
      else none
  | _, _, _, _ => none

-- Sanity checks on the validators.
example : validate_ts "2025-01-15T10:00:00Z" = true := by decide
example : validate_ts "2025-01-15 10:00:00" = false := by decide
example : validate_from "+919876543210" = true := by decide
example : validate_from "12345" = false := by decide
example : validate_message_id "   " = false := by decide

/-! ## Message store (models `app/storage.py` over a list of rows)

The SQLite table `messages` is embedded as a list of rows in insertion
order; `message_id` is the primary key.  Each query of `storage.py` is
embedded by its semantics over that list.  SQLite compares `TEXT` values
with the `BINARY` collation (memcmp on UTF-8 bytes), which coincides with
the codepoint-lexicographic order on Lean strings.
-/

structure MessageRow where
  message_id : String
  from_msisdn : String
  to_msisdn : String
  ts : String
  text : Option String
  created_at : String
  deriving DecidableEq, Repr

abbrev Store := List MessageRow

/-- Row built by the `INSERT` statement of `insert_message_idempotent`;
`now` is the value of `datetime('now')`. -/
def mkRow (m : MessageIn) (now : String) : MessageRow :=
  ⟨m.message_id, m.from_, m.to_, m.ts, m.text, now⟩

/-- Embedding of `insert_message_idempotent`: the `INSERT` raises
`IntegrityError` iff the primary key `message_id` is already present, in
which case the function returns `False` and the table is unchanged;
otherwise the row is appended and the function returns `True`. -/
def insert_message_idempotent (msg : MessageIn) (now : String) (store : Store) :
    Store × Bool :=
  if store.any (fun r => r.message_id == msg.message_id) then (store, false)
  else (store ++ [mkRow msg now], true)

/-- Python truthiness of an `Optional[str]`: `None` and `""` are falsy. -/
def isTruthy : Option String → Bool
  | none => false
  | some s => !(s == "")

/-- ASCII lower-casing, the case folding SQLite `LIKE` applies by default. -/
def asciiLower (c : Char) : Char :=
  if 'A' ≤ c && c ≤ 'Z' then Char.ofNat (c.toNat + 32) else c

/-- SQLite `LIKE` pattern matching (default, no `ESCAPE`): `%` matches any
sequence, `_` matches one character, other characters match up to ASCII
case folding. -/
def likeMatch : List Char → List Char → Bool
  | [], s => s.isEmpty
  | p :: ps, s =>
      if p == '%' then s.tails.any (fun t => likeMatch ps t)
      else
        match s with
        | [] => false
        | c :: cs => (p == '_' || asciiLower p == asciiLower c) && likeMatch ps cs

/-- SQL `text LIKE pattern` for a nullable column: `NULL LIKE p` is `NULL`,
which a `WHERE` clause treats as not satisfied. -/
def likeNullable (text : Option String) (pat : List Char) : Bool :=
  match text with
  | none => false
  | some t => likeMatch pat t.data

/-- The `WHERE` clauses collected by `list_messages`: one clause per truthy
filter, in the order the code appends them. -/
def whereClauses (from_filter since q : Option String) : List (MessageRow → Bool) :=
  (if isTruthy from_filter then [fun r => r.from_msisdn == from_filter.getD ""] else []) ++
  (if isTruthy since then [fun r => decide (since.getD "" ≤ r.ts)] else []) ++
  (if isTruthy q then
      [fun r => likeNullable r.text ('%' :: (q.getD "").data ++ ['%'])]
    else [])

/-- Conjunction (`" AND ".join`) of the collected `WHERE` clauses. -/
def matchesWhere (from_filter since q : Option String) (r : MessageRow) : Bool :=
  (whereClauses from_filter since q).all (fun c => c r)

/-- Ordering `ORDER BY ts ASC, message_id ASC` on rows. -/
def rowLe (a b : MessageRow) : Prop :=
  a.ts < b.ts ∨ (a.ts = b.ts ∧ a.message_id ≤ b.message_id)

instance : DecidableRel rowLe := fun a b => by unfold rowLe; infer_instance

instance : IsTotal MessageRow rowLe where
  total a b := by
    rcases lt_trichotomy a.ts b.ts with h | h | h
    · exact Or.inl (Or.inl h)
    · rcases le_total a.message_id b.message_id with h2 | h2
      · exact Or.inl (Or.inr ⟨h, h2⟩)
      · exact Or.inr (Or.inr ⟨h.symm, h2⟩)
    · exact Or.inr (Or.inl h)

instance : IsTrans MessageRow rowLe where
  trans a b c hab hbc := by
    rcases hab with h1 | ⟨e1, l1⟩
    · rcases hbc with h2 | ⟨e2, _⟩
      · exact Or.inl (h1.trans h2)
      · exact Or.inl (e2 ▸ h1)
    · rcases hbc with h2 | ⟨e2, l2⟩
      · exact Or.inl (e1 ▸ h2)
      · exact Or.inr ⟨e1.trans e2, l1.trans l2⟩

/-- Item dict built by `list_messages` from a selected row. -/
structure ItemOut where
  message_id : String
  from_ : String
  to_ : String
  ts : String
  text : Option String
  deriving DecidableEq, Repr

def toItem (r : MessageRow) : ItemOut :=
  ⟨r.message_id, r.from_msisdn, r.to_msisdn, r.ts, r.text⟩

/-- Embedding of `list_messages`: `total` is `SELECT COUNT(*)` under the
`WHERE` clauses; the items are the filtered rows ordered by
`(ts ASC, message_id ASC)` with `LIMIT limit OFFSET offset` applied. -/
def list_messages (limit offset : Nat) (from_filter since q : Option String)
    (store : Store) : List ItemOut × Nat :=
  let filtered := store.filter (matchesWhere from_filter since q)
  let total := filtered.length
  let sorted := List.insertionSort rowLe filtered
  (((sorted.drop offset).take limit).map toItem, total)

structure SenderStat where
  sender : String
  count : Nat
  deriving DecidableEq, Repr

structure StatsOut where
  total_messages : Nat
  senders_count : Nat
  messages_per_sender : List SenderStat
  first_message_ts : Option String
  last_message_ts : Option String
  deriving DecidableEq, Repr

/-- Ordering `ORDER BY cnt DESC` on sender groups (ties unspecified in SQL;
any order satisfying this relation is a valid query result). -/
def cntGe (a b : SenderStat) : Prop := b.count ≤ a.count

instance : DecidableRel cntGe := fun a b => by unfold cntGe; infer_instance

instance : IsTotal SenderStat cntGe where
  total a b := le_total b.count a.count

instance : IsTrans SenderStat cntGe where
  trans _ _ _ hab hbc := le_trans hbc hab

/-- Embedding of `get_stats`: total count, distinct sender count, the top
ten senders by message count (`GROUP BY from_msisdn ORDER BY cnt DESC
LIMIT 10`), and the timestamps of the boundary rows under the
`(ts, message_id)` ordering. -/
def get_stats (store : Store) : StatsOut :=
  let senders := (store.map (fun r => r.from_msisdn)).dedup
  let groups := senders.map
    (fun snd => SenderStat.mk snd (store.countP (fun r => r.from_msisdn == snd)))
  let sorted := List.insertionSort rowLe store
  { total_messages := store.length
    senders_count := senders.length
    messages_per_sender := (List.insertionSort cntGe groups).take 10
    first_message_ts := sorted.head?.map (fun r => r.ts)
    last_message_ts := sorted.getLast?.map (fun r => r.ts) }

/-! ## Webhook endpoint control flow (models `webhook_endpoint` in `app/main.py`)

Only the caller-visible HTTP status is modelled.  The result of the external
call `json.loads(raw_body.decode("utf-8"))` is supplied as an input
(`DecodeOutcome`): `err` stands for a `JSONDecodeError`, `ok p` for a decoded
JSON object restricted to the schema fields.  An exception escaping the
handler (none of the failure branches catch `TypeError`) is rendered by the
framework as status 500.
-/

inductive DecodeOutcome
  | err
  | ok (p : RawPayload)
  deriving DecidableEq, Repr

/-- Status code returned by the `/webhook` handler. -/
def webhook_status (secret : String) (raw_body : List Nat) (x_signature : String)
    (decoded : DecodeOutcome) : Nat :=
  if secret == "" then 500
  else
    match verify_signature secret raw_body x_signature with
    | .error _ => 500
    | .ok false => 401
    | .ok true =>
        match decoded with
        | .err => 400
        | .ok p =>
            match MessageIn.parse_obj p with
            | none => 422
            | some _ => 200

/-! ## Spec-side definitions

These follow the wording of the specification (not the code) and are used
to compare the code's behaviour against the spec's claims.
-/

/-- Boolean test that `needle` starts `hay`. -/
def isPrefixB : List Char → List Char → Bool
  | [], _ => true
  | _ :: _, [] => false
  | a :: as2, b :: bs => a == b && isPrefixB as2 bs

/-- Boolean test that `needle` occurs contiguously inside `hay`: it starts
some tail of `hay`. -/
def containsB (needle hay : List Char) : Bool :=
  hay.tails.any (fun t => isPrefixB needle t)

/-- Case-sensitive substring containment, as the spec words the
`textContains` filter. -/
def csContains (hay needle : String) : Bool := containsB needle.data hay.data

/-- ASCII-case-insensitive substring containment (the behaviour SQLite
`LIKE` actually implements for wildcard-free patterns). -/
def ciContains (hay needle : String) : Bool :=
  containsB (needle.data.map asciiLower) (hay.data.map asciiLower)

/-- Conjunction of the provided filters as the spec describes them: exact
match on `from`, inclusive lexicographic lower bound on `ts`, `LIKE`
containment on `text`. -/
def specFilterPred (from_filter since q : Option String) (r : MessageRow) : Bool :=
  (match from_filter with
   | none => true
   | some v => r.from_msisdn == v) &&
  (match since with
   | none => true
   | some v => decide (v ≤ r.ts)) &&
  (match q with
   | none => true
   | some v => likeNullable r.text ('%' :: v.data ++ ['%']))

-- Sanity checks on `LIKE` matching and the two containment readings.
example : likeMatch ('%' :: "hello".data ++ ['%']) "say Hello!".data = true := by decide
example : likeMatch ('%' :: "hello".data ++ ['%']) "help".data = false := by decide
example : csContains "say Hello!" "hello" = false := by decide
example : ciContains "say Hello!" "hello" = true := by decide

/-! ## Concrete values used by witnesses -/

def demoMsg : MessageIn :=
  ⟨"m1", "+919876543210", "+14155550100", "2025-01-15T10:00:00Z", some "Hello"⟩

def demoMsgSameId : MessageIn :=
  ⟨"m1", "+447700900123", "+14155550100", "2025-02-01T00:00:00Z", some "Different"⟩

def demoMsgFresh : MessageIn :=
  ⟨"m2", "+919876543210", "+14155550100", "2025-01-15T11:00:00Z", none⟩

def helloRow : MessageRow :=
  ⟨"m1", "+15550000001", "+15550000002", "2025-01-15T10:00:00Z", some "Hello", "t0"⟩

/-! ## Claims -/

/-- C1: inserting a message whose `message_id` is already present reports
`Duplicate` (returns `false`) and leaves the store unchanged, so every field
of the existing record, `created_at` included, is preserved (first write
wins); inserting a fresh `message_id` reports `Created` (returns `true`) and
appends exactly the corresponding row. -/
theorem c1_insert_idempotent (m2 : MessageIn) (now : String) (st : Store) :
    ((∃ r ∈ st, r.message_id = m2.message_id) →
      insert_message_idempotent m2 now st = (st, false)) ∧
    ((∀ r ∈ st, r.message_id ≠ m2.message_id) →
      insert_message_idempotent m2 now st = (st ++ [mkRow m2 now], true)) := by
  constructor
  · rintro ⟨r, hr, he⟩
    unfold insert_message_idempotent
    rw [if_pos]
    exact List.any_eq_true.mpr ⟨r, hr, by simp [he]⟩
  · intro h
    unfold insert_message_idempotent
    rw [if_neg]
    intro hc
    rcases List.any_eq_true.mp hc with ⟨r, hr, he⟩
    exact h r hr (by simpa using he)

/-- Witness for C1 at a concrete store: a duplicate id (with different
payload) is rejected without mutation, a fresh id is appended. -/
theorem c1_insert_idempotent_witness :
    insert_message_idempotent demoMsgSameId "t1" [mkRow demoMsg "t0"] =
      ([mkRow demoMsg "t0"], false) ∧
    insert_message_idempotent demoMsgFresh "t1" [mkRow demoMsg "t0"] =
      ([mkRow demoMsg "t0", mkRow demoMsgFresh "t1"], true) :=
  ⟨(c1_insert_idempotent demoMsgSameId "t1" [mkRow demoMsg "t0"]).1
      ⟨mkRow demoMsg "t0", by decide, by decide⟩,
   (c1_insert_idempotent demoMsgFresh "t1" [mkRow demoMsg "t0"]).2 (by decide)⟩

/-- C10: an empty string passed as `from_filter`, `since` or `q` produces the
same result as passing no filter at all, because `if from_filter:` (and the
analogous tests) treat `""` as falsy and add no `WHERE` clause. -/
theorem c10_empty_string_filters (limit offset : Nat)
    (from_filter since q : Option String) (st : Store) :
    list_messages limit offset (some "") since q st =
      list_messages limit offset none since q st ∧
    list_messages limit offset from_filter (some "") q st =
      list_messages limit offset from_filter none q st ∧
    list_messages limit offset from_filter since (some "") st =
      list_messages limit offset from_filter since none st := by
  refine ⟨?_, ?_, ?_⟩ <;> rfl

/-- C2: evaluation at the failing input.  `verify_signature` with a
syntactically well-formed call but a non-ASCII signature header raises
`TypeError` (from `hmac.compare_digest`) instead of returning `False`: the
`try` block only protects `signature_header.strip()`, which cannot raise on
a `str`, so the exception escapes. -/
theorem c2_nonascii_signature_raises :
    verify_signature "testsecret" [] "é" = .error .typeError := by rfl

/-- C5 counterexample: with no configured secret the webhook handler raises
`HTTPException(status_code=500)`, the internal-server-error class, not the
service-unavailable class (503) the claim requires. -/
theorem c5_counterexample :
    webhook_status "" [] "x" .err = 500 ∧ (500 : Nat) ≠ 503 := by
  exact ⟨rfl, by decide⟩

/-- C5 amended: with no configured secret the webhook reports status 500
(internal-server-error class), which is still distinct from the 401 of a
signature mismatch, the 400 of malformed JSON, and the 422 of a schema
validation failure. -/
theorem c5_failure_classes (secret : String) (body : List Nat) (sig : String)
    (d : DecodeOutcome) :
    (secret = "" → webhook_status secret body sig d = 500) ∧
    (secret ≠ "" → verify_signature secret body sig = .ok false →
      webhook_status secret body sig d = 401) ∧
    (secret ≠ "" → verify_signature secret body sig = .ok true → d = .err →
      webhook_status secret body sig d = 400) ∧
    (∀ p, secret ≠ "" → verify_signature secret body sig = .ok true → d = .ok p →
      MessageIn.parse_obj p = none → webhook_status secret body sig d = 422) ∧
    ((500 : Nat) ≠ 401 ∧ (500 : Nat) ≠ 400 ∧ (500 : Nat) ≠ 422 ∧
      (401 : Nat) ≠ 400 ∧ (401 : Nat) ≠ 422 ∧ (400 : Nat) ≠ 422) := by
  refine ⟨?_, ?_, ?_, ?_, by simp⟩
  · intro h
    simp [webhook_status, h]
  · intro h hv
    simp [webhook_status, h, hv]
  · intro h hv hd
    simp [webhook_status, h, hv, hd]
  · intro p h hv hd hp
    simp [webhook_status, h, hv, hd, hp]

def worldRow : MessageRow :=
  ⟨"m2", "+15550000003", "+15550000002", "2025-01-15T09:00:00Z", some "MeSsage", "t0"⟩

/-- Witness for C5 at concrete inputs: all four failure branches produce
their distinct status codes. -/
theorem c5_failure_classes_witness :
    webhook_status "" [] "x" DecodeOutcome.err = 500 ∧
    webhook_status "s" [] "zz" DecodeOutcome.err = 401 ∧
    webhook_status "s" [] (hexdigest (hmacSha256 (utf8Bytes "s") [])) DecodeOutcome.err = 400 ∧
    webhook_status "s" [] (hexdigest (hmacSha256 (utf8Bytes "s") []))
      (DecodeOutcome.ok ⟨some "m1", some "12345", some "+14155550100",
        some "2025-01-15T10:00:00Z", none⟩) = 422 :=
  ⟨(c5_failure_classes "" [] "x" .err).1 rfl,
   (c5_failure_classes "s" [] "zz" .err).2.1 (by decide) (by rfl),
   (c5_failure_classes "s" [] (hexdigest (hmacSha256 (utf8Bytes "s") [])) .err).2.2.1
     (by decide) (by rfl) rfl,
   (c5_failure_classes "s" [] (hexdigest (hmacSha256 (utf8Bytes "s") []))
       (DecodeOutcome.ok ⟨some "m1", some "12345", some "+14155550100",
         some "2025-01-15T10:00:00Z", none⟩)).2.2.2.1
     _ (by decide) (by rfl) rfl (by decide)⟩

/-- Ordering `(ts, message_id)` ascending on returned items. -/
def itemLe (a b : ItemOut) : Prop :=
  a.ts < b.ts ∨ (a.ts = b.ts ∧ a.message_id ≤ b.message_id)

/-- C4: for every store and filter combination the items returned by
`list_messages` are sorted by `(ts, message_id)` ascending, and a repeated
call with identical filters, limit and offset returns the identical
sequence (the embedding is a pure function of the store, so determinism is
equality of the two calls). -/
theorem c4_deterministic_ordering (limit offset : Nat) (f s q : Option String)
    (st : Store) :
    List.Sorted itemLe (list_messages limit offset f s q st).1 ∧
    list_messages limit offset f s q st = list_messages limit offset f s q st := by
  refine ⟨?_, rfl⟩
  simp only [list_messages]
  exact List.Pairwise.map toItem (fun a b h => h)
    (List.Pairwise.sublist
      ((List.take_sublist _ _).trans (List.drop_sublist _ _))
      (List.sorted_insertionSort rowLe _))

/-- C9: `get_stats` on an empty store returns zero totals, no senders and
absent boundary timestamps without an error, and on every store
`messages_per_sender` has at most 10 entries sorted by count descending. -/
theorem c9_stats_empty_and_top10 :
    get_stats ([] : Store) =
      { total_messages := 0, senders_count := 0, messages_per_sender := [],
        first_message_ts := none, last_message_ts := none } ∧
    ∀ st : Store, (get_stats st).messages_per_sender.length ≤ 10 ∧
      List.Sorted cntGe (get_stats st).messages_per_sender := by
  refine ⟨rfl, fun st => ⟨?_, ?_⟩⟩
  · simp only [get_stats]
    exact List.length_take_le 10 _
  · simp only [get_stats]
    exact List.Pairwise.sublist (List.take_sublist _ _)
      (List.sorted_insertionSort cntGe _)

/-- The code's conjoined `WHERE` clauses coincide with the spec's ANDed
filter predicate whenever no provided filter is the empty string (the
empty-string case is C10). -/
theorem matchesWhere_eq_specFilterPred (f s q : Option String)
    (hf : f ≠ some "") (hs : s ≠ some "") (hq : q ≠ some "") (r : MessageRow) :
    matchesWhere f s q r = specFilterPred f s q r := by
  cases f <;> cases s <;> cases q <;>
    simp_all [matchesWhere, whereClauses, isTruthy, specFilterPred, List.all_append,
      Bool.and_assoc]

/-- C8: the `total` returned by `list_messages` does not depend on `limit`
or `offset` and equals the number of stored rows satisfying the conjunction
of the provided filters (exact `from` match, inclusive lexicographic `since`
bound, `LIKE` text containment). -/
theorem c8_total_counts (L1 O1 L2 O2 : Nat) (f s q : Option String) (st : Store)
    (hf : f ≠ some "") (hs : s ≠ some "") (hq : q ≠ some "") :
    (list_messages L1 O1 f s q st).2 = (list_messages L2 O2 f s q st).2 ∧
    (list_messages L1 O1 f s q st).2 =
      (st.filter (specFilterPred f s q)).length := by
  refine ⟨rfl, ?_⟩
  simp only [list_messages]
  congr 1
  exact List.filter_congr (fun r _ => matchesWhere_eq_specFilterPred f s q hf hs hq r)

/-- Witness for C8 at a concrete store and filter. -/
theorem c8_total_counts_witness :
    (list_messages 1 5 (some "+15550000001") none none [helloRow, worldRow]).2 =
      (list_messages 50 0 (some "+15550000001") none none [helloRow, worldRow]).2 ∧
    (list_messages 1 5 (some "+15550000001") none none [helloRow, worldRow]).2 =
      ([helloRow, worldRow].filter
        (specFilterPred (some "+15550000001") none none)).length :=
  c8_total_counts 1 5 50 0 (some "+15550000001") none none [helloRow, worldRow]
    (by decide) (by decide) (by decide)

/-- C7: the ids on page `(limit = L, offset = O)` followed by those on page
`(L, O + L)` are exactly the ids on page `(2L, O)` (same filters), and the
two pages share no id.  The store satisfies the primary-key invariant:
`message_id` values are distinct. -/
theorem c7_pagination (L O : Nat) (hL : 1 ≤ L) (f s q : Option String) (st : Store)
    (hnd : (st.map (fun r => r.message_id)).Nodup) :
    ((list_messages L O f s q st).1.map (fun i => i.message_id)) ++
        ((list_messages L (O + L) f s q st).1.map (fun i => i.message_id)) =
      ((list_messages (2 * L) O f s q st).1.map (fun i => i.message_id)) ∧
    ∀ x ∈ (list_messages L O f s q st).1.map (fun i => i.message_id),
      x ∉ (list_messages L (O + L) f s q st).1.map (fun i => i.message_id) := by
  simp only [list_messages]
  have hmm : ∀ l : List MessageRow,
      (l.map toItem).map (fun i => i.message_id) = l.map (fun r => r.message_id) := by
    intro l; rw [List.map_map]; rfl
  rw [hmm, hmm, hmm, List.map_take, List.map_drop, List.map_take, List.map_drop,
    List.map_take, List.map_drop]
  set xs := (List.insertionSort rowLe (st.filter (matchesWhere f s q))).map
    (fun r => r.message_id) with hxs
  have h1 : xs.drop (O + L) = (xs.drop O).drop L := (List.drop_drop L O xs).symm
  have h2 : (xs.drop O).take (2 * L) =
      (xs.drop O).take L ++ ((xs.drop O).drop L).take L := by
    rw [two_mul, List.take_add]
  have hid : xs.Nodup := by
    have hperm : (List.insertionSort rowLe (st.filter (matchesWhere f s q))).Perm
        (st.filter (matchesWhere f s q)) := List.perm_insertionSort rowLe _
    have hfil : ((st.filter (matchesWhere f s q)).map (fun r => r.message_id)).Nodup :=
      List.Nodup.sublist (List.Sublist.map _ (List.filter_sublist st)) hnd
    exact ((hperm.map (fun r => r.message_id)).symm).nodup hfil
  have htail : (xs.drop O).Nodup := List.Nodup.sublist (List.drop_sublist O xs) hid
  have hwhole : ((xs.drop O).take L ++ ((xs.drop O).drop L).take L).Nodup := by
    rw [← h2]
    exact List.Nodup.sublist (List.take_sublist _ _) htail
  refine ⟨by rw [h1, h2], ?_⟩
  rw [h1]
  exact (List.nodup_append.mp hwhole).2.2

/-- Witness for C7: a concrete three-row store paged with `L = 1`. -/
theorem c7_pagination_witness :
    ((list_messages 1 0 none none none [helloRow, worldRow]).1.map
        (fun i => i.message_id)) ++
        ((list_messages 1 1 none none none [helloRow, worldRow]).1.map
          (fun i => i.message_id)) =
      ((list_messages 2 0 none none none [helloRow, worldRow]).1.map
        (fun i => i.message_id)) ∧
    ∀ x ∈ (list_messages 1 0 none none none [helloRow, worldRow]).1.map
        (fun i => i.message_id),
      x ∉ (list_messages 1 1 none none none [helloRow, worldRow]).1.map
        (fun i => i.message_id) :=
  c7_pagination 1 0 (by decide) none none none [helloRow, worldRow] (by decide)

/-- Mapping a function over a list maps it over every tail. -/
theorem tails_map {α β : Type} (f : α → β) (l : List α) :
    (l.map f).tails = l.tails.map (List.map f) := by
  induction l with
  | nil => rfl
  | cons a l ih => simp [List.tails_cons, ih]

/-- Any-over-map fuses into any of the composition. -/
theorem any_map_comp {α β : Type} (g : α → β) (p : β → Bool) (l : List α) :
    (l.map g).any p = l.any (fun x => p (g x)) := by
  induction l with
  | nil => rfl
  | cons a l ih => simp [ih]

/-- The pattern `%` alone matches every string. -/
theorem likeMatch_pct_nil (s : List Char) : likeMatch ['%'] s = true := by
  simp only [likeMatch]
  rw [if_pos (show ('%' == '%') = true from rfl)]
  refine List.any_eq_true.mpr ⟨[], ?_, rfl⟩
  exact (List.mem_tails [] s).mpr ⟨s, by simp⟩

/-- A wildcard-free pattern followed by `%` matches exactly the strings it
starts, up to ASCII case folding. -/
theorem likeMatch_lit_pct (q : List Char) (hq : ∀ c ∈ q, c ≠ '%' ∧ c ≠ '_') :
    ∀ s : List Char,
      likeMatch (q ++ ['%']) s = isPrefixB (q.map asciiLower) (s.map asciiLower) := by
  induction q with
  | nil =>
    intro s
    simp [likeMatch_pct_nil, isPrefixB]
  | cons a q ih =>
    intro s
    have ha := hq a (List.mem_cons_self a q)
    have hq2 : ∀ c ∈ q, c ≠ '%' ∧ c ≠ '_' := fun c hc => hq c (List.mem_cons_of_mem a hc)
    cases s with
    | nil => simp [likeMatch, isPrefixB, ha.1]
    | cons c cs =>
        have h3 : (a == '_') = false := beq_eq_false_iff_ne.mpr ha.2
        simp [likeMatch, isPrefixB, ha.1, h3, ih hq2 cs]

/-- SQLite `LIKE` with pattern `%q%` for wildcard-free `q` is exactly
ASCII-case-insensitive substring containment. -/
theorem likeMatch_pct_wrap (q : List Char) (hq : ∀ c ∈ q, c ≠ '%' ∧ c ≠ '_')
    (s : List Char) :
    likeMatch ('%' :: (q ++ ['%'])) s =
      containsB (q.map asciiLower) (s.map asciiLower) := by
  have h1 : likeMatch ('%' :: (q ++ ['%'])) s =
      s.tails.any (fun t => likeMatch (q ++ ['%']) t) := by
    simp only [likeMatch]
    rw [if_pos (show ('%' == '%') = true from rfl)]
  rw [h1, containsB, tails_map, any_map_comp]
  have h2 : (fun t => likeMatch (q ++ ['%']) t) =
      (fun t : List Char => isPrefixB (q.map asciiLower) (t.map asciiLower)) :=
    funext (fun t => likeMatch_lit_pct q hq t)
  rw [h2]

/-- The `textContains` behaviour the code actually implements on a row:
rows without text never match; rows with text match by ASCII-case-insensitive
containment (for wildcard-free `q`). -/
def amendedQPred (q : String) (r : MessageRow) : Bool :=
  match r.text with
  | none => false
  | some t => ciContains t q

/-- For a non-empty wildcard-free `q`, the `WHERE` clause built from the `q`
filter agrees with `amendedQPred` on every row. -/
theorem matchesWhere_q_eq_amended (q : String) (hq : q ≠ "")
    (hw : ∀ c ∈ q.data, c ≠ '%' ∧ c ≠ '_') (r : MessageRow) :
    matchesWhere none none (some q) r = amendedQPred q r := by
  cases hrt : r.text with
  | none =>
      simp [matchesWhere, whereClauses, isTruthy, hq, likeNullable, hrt, amendedQPred]
  | some t =>
      simp [matchesWhere, whereClauses, isTruthy, hq, likeNullable, hrt, amendedQPred,
        likeMatch_pct_wrap q.data hw t.data, ciContains]

/-- C3 counterexample: with the store holding one row whose text is
`"Hello"`, the filter `q = "hello"` matches and counts that row, although
`"Hello"` does not contain `"hello"` as a case-sensitive substring — SQLite
`LIKE` is ASCII-case-insensitive, contradicting the claim as stated. -/
theorem c3_counterexample :
    (list_messages 50 0 none none (some "hello") [helloRow]).2 = 1 ∧
    (list_messages 50 0 none none (some "hello") [helloRow]).1 = [toItem helloRow] ∧
    csContains "Hello" "hello" = false := by
  refine ⟨by decide, by decide, by decide⟩

/-- C3 amended: for every store and every non-empty `q` free of `LIKE`
wildcards, `list_messages` counts in `total` exactly the records whose text
is present and contains `q` as an ASCII-case-insensitive substring (records
without text never match), and with offset 0 and a large enough limit it
returns exactly those records. -/
theorem c3_text_filter (q : String) (hq : q ≠ "")
    (hw : ∀ c ∈ q.data, c ≠ '%' ∧ c ≠ '_') (L : Nat) (st : Store)
    (hL : st.length ≤ L) :
    (list_messages L 0 none none (some q) st).2 =
      (st.filter (amendedQPred q)).length ∧
    (list_messages L 0 none none (some q) st).1.Perm
      ((st.filter (amendedQPred q)).map toItem) := by
  have hfil : st.filter (matchesWhere none none (some q)) = st.filter (amendedQPred q) :=
    List.filter_congr (fun r _ => matchesWhere_q_eq_amended q hq hw r)
  constructor
  · simp only [list_messages]
    rw [hfil]
  · simp only [list_messages]
    rw [hfil, List.drop_zero]
    have hlen : (List.insertionSort rowLe (st.filter (amendedQPred q))).length ≤ L := by
      rw [List.length_insertionSort]
      exact le_trans (List.length_filter_le _ _) hL
    rw [List.take_of_length_le hlen]
    exact (List.perm_insertionSort rowLe _).map toItem

/-- Witness for the amended C3 at a concrete store: `q = "ss"` selects the
row with text `"MeSsage"` and not the row with text `"Hello"`. -/
theorem c3_text_filter_witness :
    (list_messages 2 0 none none (some "ss") [helloRow, worldRow]).2 =
      ([helloRow, worldRow].filter (amendedQPred "ss")).length ∧
    (list_messages 2 0 none none (some "ss") [helloRow, worldRow]).1.Perm
      (([helloRow, worldRow].filter (amendedQPred "ss")).map toItem) :=
  c3_text_filter "ss" (by decide) (by decide) 2 [helloRow, worldRow] (by decide)

/-- C6: `MessageIn` validation rejects any payload whose `from`/`to` fails
the E.164 regex, any `ts` that does not end in `Z` or whose remainder (with
`Z` replaced by `+00:00`) does not parse as an ISO-8601 datetime, any
`message_id` that is empty after trimming, and any text of length 4097; it
accepts payloads with valid fields whose text is absent or of length 4096. -/
theorem c6_payload_validation :
    (∀ p : RawPayload, ∀ v : String,
      (p.from_ = some v → e164Match v = false → MessageIn.parse_obj p = none) ∧
      (p.to_ = some v → e164Match v = false → MessageIn.parse_obj p = none) ∧
      (p.ts = some v →
        (endsWithZ v = false ∨ pyFromIsoformat (replaceZ v) = false) →
        MessageIn.parse_obj p = none) ∧
      (p.message_id = some v → pyStrip v = "" → MessageIn.parse_obj p = none) ∧
      (p.text = some v → v.length = 4097 → MessageIn.parse_obj p = none)) ∧
    (∀ mid f t ts : String, ∀ text : Option String,
      validate_message_id mid = true → e164Match f = true → e164Match t = true →
      validate_ts ts = true →
      (text = none ∨ ∃ v, text = some v ∧ v.length = 4096) →
      (MessageIn.parse_obj ⟨some mid, some f, some t, some ts, text⟩).isSome = true) := by
  constructor
  · intro p v
    rcases p with ⟨mid, f, t, ts, tx⟩
    refine ⟨?_, ?_, ?_, ?_, ?_⟩
    · rintro rfl he
      cases mid <;> cases t <;> cases ts <;>
        simp [MessageIn.parse_obj, validate_from, he]
    · rintro rfl he
      cases mid <;> cases f <;> cases ts <;>
        simp [MessageIn.parse_obj, validate_to, he]
    · rintro rfl he
      have hv : validate_ts v = false := by
        rcases he with he | he <;> simp [validate_ts, he]
      cases mid <;> cases f <;> cases t <;>
        simp [MessageIn.parse_obj, hv]
    · rintro rfl he
      have hv : validate_message_id v = false := by
        simp [validate_message_id, he]
      cases f <;> cases t <;> cases ts <;>
        simp [MessageIn.parse_obj, hv]
    · rintro rfl he
      have hv : validate_text (some v) = false := by
        simp [validate_text, he]
      cases mid <;> cases f <;> cases t <;> cases ts <;>
        simp [MessageIn.parse_obj, hv]
  · intro mid f t ts tx h1 h2 h3 h4 h5
    rcases h5 with rfl | ⟨v, rfl, hv⟩
    · simp [MessageIn.parse_obj, validate_from, validate_to, validate_text,
        h1, h2, h3, h4]
    · simp [MessageIn.parse_obj, validate_from, validate_to, validate_text,
        h1, h2, h3, h4, hv]

/-- Witness for C6 at concrete payloads: `"12345"` as `from` is rejected,
`"2025-01-15 10:00:00"` as `ts` is rejected, a whitespace `message_id` is
rejected, text of length 4097 is rejected, and valid payloads with text of
length 4096 or no text are accepted. -/
theorem c6_payload_validation_witness :
    MessageIn.parse_obj ⟨some "m1", some "12345", some "+14155550100",
      some "2025-01-15T10:00:00Z", some "Hello"⟩ = none ∧
    MessageIn.parse_obj ⟨some "m1", some "+919876543210", some "+14155550100",
      some "2025-01-15 10:00:00", some "Hello"⟩ = none ∧
    MessageIn.parse_obj ⟨some "  ", some "+919876543210", some "+14155550100",
      some "2025-01-15T10:00:00Z", some "Hello"⟩ = none ∧
    MessageIn.parse_obj ⟨some "m1", some "+919876543210", some "+14155550100",
      some "2025-01-15T10:00:00Z", some (String.mk (List.replicate 4097 'a'))⟩ = none ∧
    (MessageIn.parse_obj ⟨some "m1", some "+919876543210", some "+14155550100",
      some "2025-01-15T10:00:00Z",
      some (String.mk (List.replicate 4096 'a'))⟩).isSome = true ∧
    (MessageIn.parse_obj ⟨some "m1", some "+919876543210", some "+14155550100",
      some "2025-01-15T10:00:00Z", none⟩).isSome = true :=
  ⟨(c6_payload_validation.1 _ "12345").1 rfl (by decide),
   (c6_payload_validation.1 _ "2025-01-15 10:00:00").2.2.1 rfl (Or.inl (by decide)),
   (c6_payload_validation.1 _ "  ").2.2.2.1 rfl (by decide),
   (c6_payload_validation.1 _ (String.mk (List.replicate 4097 'a'))).2.2.2.2 rfl
     (List.length_replicate 4097 'a'),
   c6_payload_validation.2 "m1" "+919876543210" "+14155550100" "2025-01-15T10:00:00Z"
     (some (String.mk (List.replicate 4096 'a'))) (by decide) (by decide) (by decide)
     (by decide) (Or.inr ⟨_, rfl, List.length_replicate 4096 'a'⟩),
   c6_payload_validation.2 "m1" "+919876543210" "+14155550100" "2025-01-15T10:00:00Z"
     none (by decide) (by decide) (by decide) (by decide) (Or.inl rfl)⟩
